import Mathlib

/-
Verification of the u301-js SDK (TypeScript) against its specification.

The development shallowly embeds the response-validation-and-error-
normalization pipeline of the SDK:
  * src/errors.ts        — the ApiError envelope schema, the U301Error
                           taxonomy, and the classifier toU301Error;
  * src/url-shortener.ts — the ShortenResult schemas and the create /
                           createMany / list operations;
  * the analytics module — the clicks schema and getClicks.

JSON values are modelled by the inductive JsValue (JS numbers are modelled
as integers: no claim below depends on fractional values).  valibot schemas
become parsers JsValue → Option α, where `none` is a failed safeParse /
a thrown ValiError for v.parse.  A method that in TS either returns a
value or throws becomes a function into Except Thrown α, where Thrown
distinguishes typed U301 errors from raw valibot parse errors.
-/

namespace U301

/-- A JSON-ish JavaScript value, as seen by the valibot validators.
`undefined` is kept distinct from `null` because valibot's optional
and nullish wrappers treat them differently. -/
inductive JsValue where
  | str (s : String)
  | num (n : Int)
  | bool (b : Bool)
  | null
  | undefined
  | obj (fields : List (String × JsValue))
  | arr (elems : List JsValue)

/-- JavaScript truthiness of a value, used by the source's
`response?._data ? … : null` and `opts.throwOnError` tests. -/
def truthy : JsValue → Bool
  | .str s => !(s == "")
  | .num n => !(n == 0)
  | .bool b => b
  | .null => false
  | .undefined => false
  | .obj _ => true
  | .arr _ => true

/-- Property lookup on an object's field list (JS object keys are unique;
the first binding wins). -/
def jsGet (fields : List (String × JsValue)) (k : String) : Option JsValue :=
  (fields.find? (fun p => p.1 == k)).map (fun p => p.2)

/-- valibot ISO_DATE check: four digits, dash, month 01–12, dash,
day 01–31 (structure of the library's regular expression). -/
def isIsoDate (s : String) : Bool :=
  match s.toList with
  | [y1, y2, y3, y4, '-', m1, m2, '-', d1, d2] =>
      y1.isDigit && y2.isDigit && y3.isDigit && y4.isDigit &&
      ((m1 == '0' && m2.isDigit && !(m2 == '0')) ||
       (m1 == '1' && (m2 == '0' || m2 == '1' || m2 == '2'))) &&
      ((d1 == '0' && d2.isDigit && !(d2 == '0')) ||
       ((d1 == '1' || d1 == '2') && d2.isDigit) ||
       (d1 == '3' && (d2 == '0' || d2 == '1')))
  | _ => false

/-- Hour field 00–23, two characters. -/
def isHourPair (h1 h2 : Char) : Bool :=
  ((h1 == '0' || h1 == '1') && h2.isDigit) || (h1 == '2' && (h2 == '0' || h2 == '1' || h2 == '2' || h2 == '3'))

/-- Minute/second field 00–59, two characters. -/
def isMinutePair (m1 m2 : Char) : Bool :=
  (m1 == '0' || m1 == '1' || m1 == '2' || m1 == '3' || m1 == '4' || m1 == '5') && m2.isDigit

/-- Timezone tail of an ISO timestamp: `Z` or `±hh:mm`. -/
def isTzTail : List Char → Bool
  | ['Z'] => true
  | [sgn, h1, h2, ':', m1, m2] => (sgn == '+' || sgn == '-') && isHourPair h1 h2 && isMinutePair m1 m2
  | _ => false

/-- Optional fractional seconds (1–9 digits) followed by the timezone tail. -/
def isFracTzTail (cs : List Char) : Bool :=
  match cs with
  | '.' :: rest =>
      let ds := rest.takeWhile (fun c => c.isDigit)
      decide (1 ≤ ds.length) && decide (ds.length ≤ 9) && isTzTail (rest.drop ds.length)
  | rest => isTzTail rest

/-- valibot ISO_TIMESTAMP check: an ISO date, `T`, `hh:mm:ss`, optional
fractional seconds, and `Z` or a `±hh:mm` offset. -/
def isIsoTimestamp (s : String) : Bool :=
  match s.toList with
  | y1 :: y2 :: y3 :: y4 :: '-' :: mo1 :: mo2 :: '-' :: d1 :: d2 :: 'T'
      :: h1 :: h2 :: ':' :: mi1 :: mi2 :: ':' :: s1 :: s2 :: rest =>
      y1.isDigit && y2.isDigit && y3.isDigit && y4.isDigit &&
      ((mo1 == '0' && mo2.isDigit && !(mo2 == '0')) ||
       (mo1 == '1' && (mo2 == '0' || mo2 == '1' || mo2 == '2'))) &&
      ((d1 == '0' && d2.isDigit && !(d2 == '0')) ||
       ((d1 == '1' || d1 == '2') && d2.isDigit) ||
       (d1 == '3' && (d2 == '0' || d2 == '1'))) &&
      isHourPair h1 h2 && isMinutePair mi1 mi2 && isMinutePair s1 s2 &&
      isFracTzTail rest
  | _ => false

/-- Hexadecimal digit, either case (valibot's UUID check is
case-insensitive). -/
def isHexDigit (c : Char) : Bool :=
  c.isDigit || ('a' ≤ c && c ≤ 'f') || ('A' ≤ c && c ≤ 'F')

/-- valibot UUID check: 8-4-4-4-12 hexadecimal groups separated by
dashes. -/
def isUuid (s : String) : Bool :=
  let cs := s.toList
  decide (cs.length = 36) &&
  (List.range 36).all (fun i =>
    let c := cs.getD i ' '
    if i == 8 || i == 13 || i == 18 || i == 23 then c == '-' else isHexDigit c)

/-- Models valibot's v.url() check, which accepts exactly the strings the
platform URL constructor parses.  Only its behaviour on absolute
scheme-prefixed strings matters for the claims below; modelled as a
nonempty alphabetic scheme, then the literal `://`, then a nonempty
remainder. -/
def isUrl (s : String) : Bool :=
  let cs := s.toList
  let scheme := cs.takeWhile (fun c => c.isAlpha)
  let rest := cs.drop scheme.length
  decide (1 ≤ scheme.length) &&
  (match rest with
   | ':' :: '/' :: '/' :: tail => decide (1 ≤ tail.length)
   | _ => false)

/-- v.string(): succeeds only on a string value (a missing or `undefined`
property fails). -/
def parseStringField : Option JsValue → Option String
  | some (.str s) => some s
  | _ => none

/-- v.number(). -/
def parseNumberField : Option JsValue → Option Int
  | some (.num n) => some n
  | _ => none

/-- v.boolean(). -/
def parseBooleanField : Option JsValue → Option Bool
  | some (.bool b) => some b
  | _ => none

/-- v.optional(v.string()): a missing or `undefined` property is accepted
as absent; a present property must be a string. -/
def parseOptionalString : Option JsValue → Option (Option String)
  | none => some none
  | some .undefined => some none
  | some (.str s) => some (some s)
  | _ => none

/-- v.optional(v.number()). -/
def parseOptionalNumber : Option JsValue → Option (Option Int)
  | none => some none
  | some .undefined => some none
  | some (.num n) => some (some n)
  | _ => none

/-- v.nullish(v.pipe(v.string(), v.isoTimestamp())): missing, `undefined`
and `null` are accepted as absent; a present value must be an ISO
timestamp string. -/
def parseNullishIsoTimestamp : Option JsValue → Option (Option String)
  | none => some none
  | some .undefined => some none
  | some .null => some none
  | some (.str s) => if isIsoTimestamp s then some (some s) else none
  | _ => none

/-! ## The ApiError envelope (src/errors.ts, ApiErrorSchema) -/

/-- One entry of the envelope's optional `errors` list. -/
structure ApiFieldIssue where
  field : String
  message : String

/-- Parsed output of ApiErrorSchema. -/
structure ApiError where
  message : String
  code : Option String
  requestId : Option String
  errors : Option (List ApiFieldIssue)

/-- Element schema of the envelope's `errors` array. -/
def parseApiFieldIssue : JsValue → Option ApiFieldIssue
  | .obj fs =>
      match parseStringField (jsGet fs "field"), parseStringField (jsGet fs "message") with
      | some f, some m => some ⟨f, m⟩
      | _, _ => none
  | _ => none

/-- v.optional(v.array(…)) for the envelope's `errors` field. -/
def parseOptionalIssues : Option JsValue → Option (Option (List ApiFieldIssue))
  | none => some none
  | some .undefined => some none
  | some (.arr xs) => (xs.mapM parseApiFieldIssue).map some
  | _ => none

/-- v.safeParse(ApiErrorSchema, _): succeeds iff the value is an object
whose `message` is a string and whose optional `code`, `requestId` and
`errors` fields, when present, have the declared shapes.  valibot strips
unknown keys, so the output carries exactly the declared fields. -/
def safeParseApiError : JsValue → Option ApiError
  | .obj fs => do
      let message ← parseStringField (jsGet fs "message")
      let code ← parseOptionalString (jsGet fs "code")
      let requestId ← parseOptionalString (jsGet fs "requestId")
      let errors ← parseOptionalIssues (jsGet fs "errors")
      pure ⟨message, code, requestId, errors⟩
  | _ => none

/-! ## Shorten result items (src/url-shortener.ts) -/

/-- Parsed output of the ShortenResultItem schema: a successfully
shortened link. -/
structure ShortenResultItemR where
  id : String
  url : String
  slug : String
  isCustomSlug : Bool
  domain : String
  isReused : Bool
  comment : String
deriving DecidableEq

/-- Parsed output of the ShortenErrorItem schema: a per-item failure
reported inline by the bulk endpoint. -/
structure ShortenErrorItemR where
  url : String
  error : String
  message : Option String
deriving DecidableEq

/-- One element of a parsed ShortenResult: the union
v.union([ShortenResultItem, ShortenErrorItem]).  valibot strips unknown
keys from object outputs, so on a validated entry the JS test
`'error' in item` holds exactly on the `err` variant (the success schema
has no `error` key; the error schema requires one). -/
inductive ShortenEntry where
  | ok (r : ShortenResultItemR)
  | err (e : ShortenErrorItemR)
deriving DecidableEq

/-- ShortenResultItem: requires a UUID id, a URL, and the remaining
declared fields with their primitive kinds. -/
def parseShortenResultItem : JsValue → Option ShortenResultItemR
  | .obj fs => do
      let id ← parseStringField (jsGet fs "id")
      if isUuid id then
        let url ← parseStringField (jsGet fs "url")
        if isUrl url then
          let slug ← parseStringField (jsGet fs "slug")
          let isCustomSlug ← parseBooleanField (jsGet fs "isCustomSlug")
          let domain ← parseStringField (jsGet fs "domain")
          let isReused ← parseBooleanField (jsGet fs "isReused")
          let comment ← parseStringField (jsGet fs "comment")
          pure ⟨id, url, slug, isCustomSlug, domain, isReused, comment⟩
        else none
      else none
  | _ => none

/-- ShortenErrorItem: a URL, an error code string, and an optional
message. -/
def parseShortenErrorItem : JsValue → Option ShortenErrorItemR
  | .obj fs => do
      let url ← parseStringField (jsGet fs "url")
      if isUrl url then
        let error ← parseStringField (jsGet fs "error")
        let message ← parseOptionalString (jsGet fs "message")
        pure ⟨url, error, message⟩
      else none
  | _ => none

/-- The union member check: valibot tries ShortenResultItem first and
falls back to ShortenErrorItem. -/
def parseShortenEntry (v : JsValue) : Option ShortenEntry :=
  match parseShortenResultItem v with
  | some r => some (.ok r)
  | none => (parseShortenErrorItem v).map .err

/-- ShortenResult = v.array(v.union([ShortenResultItem,
ShortenErrorItem])). -/
def parseShortenResult : JsValue → Option (List ShortenEntry)
  | .arr xs => xs.mapM parseShortenEntry
  | _ => none

/-! ## The typed error taxonomy (src/errors.ts) -/

/-- What a U301Error carries in its `details` slot: a parsed envelope, a
raw response body, an opaque valibot issue list, a single shorten result
entry, or a list of entries.  (In TS the slot has type `unknown`.) -/
inductive U301Details where
  | api (a : ApiError)
  | raw (v : JsValue)
  | issues
  | entry (e : ShortenEntry)
  | entries (es : List ShortenEntry)

/-- The `cause` of an error: either a JS Error instance (carrying a
message) or some other thrown value — `cause instanceof Error`
distinguishes the two. -/
inductive JsCause where
  | error (message : String)
  | nonError (v : JsValue)

/-- The U301Error class: name discriminates the subclass, `code` is the
taxonomy code.  `code` is a plain string because the source casts the
envelope's code into the code type unchecked. -/
structure U301Error where
  name : String
  message : String
  code : String
  status : Option Int
  requestId : Option String
  details : Option U301Details
  cause : Option JsCause

/-- The optional init record every error constructor takes alongside the
message. -/
structure U301Init where
  status : Option Int := none
  requestId : Option String := none
  details : Option U301Details := none
  cause : Option JsCause := none

/-- The base class constructor: `new U301Error(message, init)`. -/
def U301ErrorMk (message : String) (code : String) (init : U301Init) : U301Error :=
  { name := "U301Error", message := message, code := code, status := init.status,
    requestId := init.requestId, details := init.details, cause := init.cause }

/-- class BadRequestError. -/
def BadRequestError (message : String) (init : U301Init) : U301Error :=
  { U301ErrorMk message "BAD_REQUEST" init with name := "BadRequestError" }

/-- class UnauthorizedError. -/
def UnauthorizedError (message : String) (init : U301Init) : U301Error :=
  { U301ErrorMk message "UNAUTHORIZED" init with name := "UnauthorizedError" }

/-- class ForbiddenError. -/
def ForbiddenError (message : String) (init : U301Init) : U301Error :=
  { U301ErrorMk message "FORBIDDEN" init with name := "ForbiddenError" }

/-- class NotFoundError. -/
def NotFoundError (message : String) (init : U301Init) : U301Error :=
  { U301ErrorMk message "NOT_FOUND" init with name := "NotFoundError" }

/-- class RateLimitError. -/
def RateLimitError (message : String) (init : U301Init) : U301Error :=
  { U301ErrorMk message "RATE_LIMITED" init with name := "RateLimitError" }

/-- class ValidationError. -/
def ValidationError (message : String) (init : U301Init) : U301Error :=
  { U301ErrorMk message "VALIDATION_FAILED" init with name := "ValidationError" }

/-- class ParseError. -/
def ParseError (message : String) (init : U301Init) : U301Error :=
  { U301ErrorMk message "PARSE_FAILED" init with name := "ParseError" }

/-- class NetworkError. -/
def NetworkError (message : String) (init : U301Init) : U301Error :=
  { U301ErrorMk message "NETWORK_ERROR" init with name := "NetworkError" }

/-- class ServerError. -/
def ServerError (message : String) (init : U301Init) : U301Error :=
  { U301ErrorMk message "SERVER_ERROR" init with name := "ServerError" }

/-! ## The classifier toU301Error (src/errors.ts) -/

/-- The OfetchResponseLike argument: `{ status?: number; _data?: unknown }`,
with the whole response possibly absent. -/
structure OfetchResponseLike where
  status : Option Int := none
  _data : Option JsValue := none

/-- `response?.status ?? 0`. -/
def rawStatus (response : Option OfetchResponseLike) : Int :=
  (response.bind (fun r => r.status)).getD 0

/-- `response?._data` (absent response or absent field both give
`undefined`, here `none`). -/
def rawBody (response : Option OfetchResponseLike) : Option JsValue :=
  response.bind (fun r => r._data)

/-- The combined `parsed` / `api` computation of the source:
`response?._data ? v.safeParse(ApiErrorSchema, response._data) : null`
followed by `parsed && parsed.success ? parsed.output : null`: the
envelope parse is attempted only on a truthy body, and `api` is its
output exactly when it succeeded. -/
def apiOf (response : Option OfetchResponseLike) : Option ApiError :=
  match rawBody response with
  | some d => if truthy d then safeParseApiError d else none
  | none => none

/-- `api ?? response?._data` as a details slot: the parsed envelope when
the parse succeeded, else the raw body when one is present. -/
def apiOrRawDetails (response : Option OfetchResponseLike) : Option U301Details :=
  match apiOf response with
  | some a => some (.api a)
  | none => (rawBody response).map .raw

/-- toU301Error: classify a raw HTTP outcome into a typed error.
Status 0 (covering an absent response or status) gives NetworkError;
400/401/403/404/429 and >= 500 map by table; any other status builds a
generic U301Error whose code is the envelope's code when available, else
"UNKNOWN".  The mapped-status branches pass `api` as details; the
status-0 and unmapped branches pass `api ?? response?._data`. -/
def toU301Error (response : Option OfetchResponseLike) (cause : Option JsCause) : U301Error :=
  let status := rawStatus response
  let api := apiOf response
  let message :=
    match api with
    | some a => a.message
    | none =>
        match cause with
        | some (.error m) => m
        | _ => "Request error"
  let requestId := api.bind (fun a => a.requestId)
  let codeFromApi := api.bind (fun a => a.code)
  if status = 0 then
    NetworkError message { status := some status, requestId := requestId,
                           details := apiOrRawDetails response, cause := cause }
  else if status = 400 then
    BadRequestError message { status := some status, requestId := requestId,
                              details := api.map .api, cause := cause }
  else if status = 401 then
    UnauthorizedError message { status := some status, requestId := requestId,
                                details := api.map .api, cause := cause }
  else if status = 403 then
    ForbiddenError message { status := some status, requestId := requestId,
                             details := api.map .api, cause := cause }
  else if status = 404 then
    NotFoundError message { status := some status, requestId := requestId,
                            details := api.map .api, cause := cause }
  else if status = 429 then
    RateLimitError message { status := some status, requestId := requestId,
                             details := api.map .api, cause := cause }
  else if 500 ≤ status then
    ServerError message { status := some status, requestId := requestId,
                          details := api.map .api, cause := cause }
  else
    U301ErrorMk message (codeFromApi.getD "UNKNOWN")
      { status := some status, requestId := requestId,
        details := apiOrRawDetails response, cause := cause }

/-! ## The URL shortener operations (src/url-shortener.ts) -/

/-- What an SDK operation can throw: a typed U301Error (create and
createMany construct these themselves) or a raw valibot ValiError
(v.parse throws these directly; its issue payload is opaque here). -/
inductive Thrown where
  | u301 (e : U301Error)
  | vali

/-- Does a result throw a typed U301Error with the given taxonomy
code? -/
def throwsCode (code : String) : Except Thrown α → Bool
  | .error (.u301 e) => e.code == code
  | _ => false

/-- The ShortenOptions record.  `expiredAt` (a JS Date) is modelled by
its epoch milliseconds; all option fields default to absent as in the
object literal `{ url: options }`. -/
structure ShortenOptionsR where
  url : String
  password : Option String := none
  expiredAt : Option Int := none
  reuseExisting : Option Bool := none
  domain : Option String := none
  slug : Option String := none
  comment : Option String := none
deriving DecidableEq

/-- The argument of create: `ShortenOptions | string`. -/
inductive CreateInput where
  | str (s : String)
  | opts (o : ShortenOptionsR)
deriving DecidableEq

/-- The discriminator expression `'error' in item && item.error` applied
to a validated entry: valibot strips unknown keys, so `'error' in item`
holds exactly on the `err` variant, and `item.error` (a string) is
truthy exactly when it is nonempty. -/
def entryHasTruthyError : ShortenEntry → Bool
  | .err e => !(e.error == "")
  | .ok _ => false

/-- The bare membership test `'error' in item` on a validated entry. -/
def entryHasErrorField : ShortenEntry → Bool
  | .err _ => true
  | .ok _ => false

/-- `item.message || item.error`: the thrown ValidationError's message is
the item's message when present and truthy, else its error code. -/
def errItemMessage (e : ShortenErrorItemR) : String :=
  match e.message with
  | some m => if m == "" then e.error else m
  | none => e.error

/-- The outcome of a create call: the body of the single POST to
`/shorten/bulk` together with the returned-or-thrown result.  The result
component is what the method does with the (successful) response body;
a transport-level failure would instead be classified by the facade. -/
structure CreateCall where
  requestBody : List ShortenOptionsR
  result : Except Thrown (Option ShortenEntry)

/-- URLShortener.create: a string input is first replaced by
`{ url: input }`; the normalized options are sent as a one-element bulk
body; the response is safeParsed against ShortenResult; on success the
first item is returned unless it has a truthy `error` field, in which
case a ValidationError carrying the item is thrown; a failed parse
throws ParseError. -/
def create (input : CreateInput) (respBody : JsValue) : CreateCall :=
  let options : ShortenOptionsR :=
    match input with
    | .str s => { url := s }
    | .opts o => o
  { requestBody := [options]
    result :=
      match parseShortenResult respBody with
      | some output =>
          match output.head? with
          | some item =>
              if entryHasTruthyError item then
                match item with
                | .err e => .error (.u301 (ValidationError (errItemMessage e) { details := some (.entry item) }))
                | .ok _ => .ok (some item)
              else .ok (some item)
          | none => .ok none
      | none => .error (.u301 (ParseError "Invalid ShortenResult" { details := some .issues })) }

/-- The outcome of a createMany call. -/
structure CreateManyCall where
  requestBody : List ShortenOptionsR
  result : Except Thrown (List ShortenEntry)

/-- `inputs.map(i => typeof i === 'string' ? { url: i } : i)`. -/
def normalizeInputs (inputs : List CreateInput) : List ShortenOptionsR :=
  inputs.map (fun i =>
    match i with
    | .str s => { url := s }
    | .opts o => o)

/-- URLShortener.createMany: normalize the inputs, send them as the bulk
body, safeParse the response against ShortenResult (ParseError on
failure); when `opts.throwOnError` is truthy (it defaults to absent,
hence falsy), filter the output by the truthy-error discriminator and
throw a ValidationError carrying the filtered list when it is nonempty;
otherwise return the full parsed output. -/
def createMany (inputs : List CreateInput) (throwOnError : Option Bool)
    (respBody : JsValue) : CreateManyCall :=
  { requestBody := normalizeInputs inputs
    result :=
      match parseShortenResult respBody with
      | none => .error (.u301 (ParseError "Invalid ShortenResult" { details := some .issues }))
      | some output =>
          if throwOnError.getD false then
            let errors := output.filter entryHasTruthyError
            if errors.length ≠ 0 then
              .error (.u301 (ValidationError "Bulk create failed" { details := some (.entries errors) }))
            else .ok output
          else .ok output }

/-! ## list (src/url-shortener.ts) -/

/-- The ListParams record. -/
structure ListParamsR where
  workspaceId : Option String := none
  perPage : Option Int := none
  page : Option Int := none
deriving DecidableEq

/-- Parsed output of ShortenLinkSchema. -/
structure ShortenLinkR where
  id : String
  domainName : String
  slug : String
  isCustomSlug : Bool
  shortUrl : String
  originalUrl : String
  allowSearchEngineIndexing : Bool
  archived : Bool
  suspended : Bool
  statsClicks : Option Int
  expiresAt : Option String
  userId : String
  workspaceId : String
  comment : String
  createdAt : String
  updatedAt : Option String
deriving DecidableEq

/-- ShortenLinkSchema: UUID-checked ids, URL-checked original URL,
ISO-timestamp-checked creation time, optional click count, nullish
expiry and update timestamps, and the remaining primitive fields. -/
def parseShortenLink : JsValue → Option ShortenLinkR
  | .obj fs => do
      let id ← parseStringField (jsGet fs "id")
      if isUuid id then
        let domainName ← parseStringField (jsGet fs "domainName")
        let slug ← parseStringField (jsGet fs "slug")
        let isCustomSlug ← parseBooleanField (jsGet fs "isCustomSlug")
        let shortUrl ← parseStringField (jsGet fs "shortUrl")
        let originalUrl ← parseStringField (jsGet fs "originalUrl")
        if isUrl originalUrl then
          let allowSearchEngineIndexing ← parseBooleanField (jsGet fs "allowSearchEngineIndexing")
          let archived ← parseBooleanField (jsGet fs "archived")
          let suspended ← parseBooleanField (jsGet fs "suspended")
          let statsClicks ← parseOptionalNumber (jsGet fs "statsClicks")
          let expiresAt ← parseNullishIsoTimestamp (jsGet fs "expiresAt")
          let userId ← parseStringField (jsGet fs "userId")
          if isUuid userId then
            let workspaceId ← parseStringField (jsGet fs "workspaceId")
            if isUuid workspaceId then
              let comment ← parseStringField (jsGet fs "comment")
              let createdAt ← parseStringField (jsGet fs "createdAt")
              if isIsoTimestamp createdAt then
                let updatedAt ← parseNullishIsoTimestamp (jsGet fs "updatedAt")
                pure ⟨id, domainName, slug, isCustomSlug, shortUrl, originalUrl,
                      allowSearchEngineIndexing, archived, suspended, statsClicks,
                      expiresAt, userId, workspaceId, comment, createdAt, updatedAt⟩
              else none
            else none
          else none
        else none
      else none
  | _ => none

/-- The metadata object of the list response schema. -/
structure ListMetadataR where
  total : Int
  perPage : Int
  page : Int
deriving DecidableEq

/-- Parsed output of the inline list response schema. -/
structure ListResultR where
  links : List ShortenLinkR
  metadata : ListMetadataR
deriving DecidableEq

/-- The inline schema of list:
`{ links: v.array(ShortenLinkSchema), metadata: { total, perPage, page } }`. -/
def parseListResult : JsValue → Option ListResultR
  | .obj fs => do
      let links ←
        match jsGet fs "links" with
        | some (.arr xs) => xs.mapM parseShortenLink
        | _ => none
      let metadata ←
        match jsGet fs "metadata" with
        | some (.obj ms) => do
            let total ← parseNumberField (jsGet ms "total")
            let perPage ← parseNumberField (jsGet ms "perPage")
            let page ← parseNumberField (jsGet ms "page")
            pure (⟨total, perPage, page⟩ : ListMetadataR)
        | _ => none
      pure ⟨links, metadata⟩
  | _ => none

/-- The outcome of a list call.  `finalParams` is the state of the
caller-supplied params record after the call: the source's
`params.workspaceId ??= this.workspaceId` assigns into that very record,
so the caller observes the mutation.  `query` is the record sent as the
request's query. -/
structure ListCall where
  finalParams : ListParamsR
  query : ListParamsR
  result : Except Thrown ListResultR

/-- URLShortener.list: default the params record's workspaceId to the
client's configured workspace (an in-place `??=` assignment), issue the
GET with that record as query, and v.parse the response against the
inline schema — v.parse throws a raw ValiError on failure (list does not
wrap it in the typed ParseError the way create and createMany do). -/
def list (clientWorkspaceId : String) (params : ListParamsR)
    (respBody : JsValue) : ListCall :=
  let params :=
    match params.workspaceId with
    | none => { params with workspaceId := some clientWorkspaceId }
    | some _ => params
  { finalParams := params
    query := params
    result :=
      match parseListResult respBody with
      | some r => .ok r
      | none => .error .vali }

/-! ## Analytics getClicks (the analytics module) -/

/-- The requested granularity of the click time series. -/
inductive Granularity where
  | day
  | hour
deriving DecidableEq

/-- A parsed click point.  Both union members produce a date string and
a count; they differ only in the validation applied to the string. -/
structure ClickPointR where
  date : String
  click : Int
deriving DecidableEq

/-- ClickDateItemSchema: `date` must be an ISO date
(v.pipe(v.string(), v.isoDate())). -/
def parseClickDateItem : JsValue → Option ClickPointR
  | .obj fs => do
      let d ← parseStringField (jsGet fs "date")
      if isIsoDate d then
        let c ← parseNumberField (jsGet fs "click")
        pure ⟨d, c⟩
      else none
  | _ => none

/-- ClickHourItemSchema: `date` is any string
(v.pipe(v.string()) — no timestamp check). -/
def parseClickHourItem : JsValue → Option ClickPointR
  | .obj fs => do
      let d ← parseStringField (jsGet fs "date")
      let c ← parseNumberField (jsGet fs "click")
      pure ⟨d, c⟩
  | _ => none

/-- The union member check of the clicks schema: the day-shaped variant
is tried first, then the hour-shaped variant. -/
def parseClickPoint (v : JsValue) : Option ClickPointR :=
  match parseClickDateItem v with
  | some p => some p
  | none => parseClickHourItem v

/-- Parsed output of AnalyticsClicksSchema. -/
structure AnalyticsClicksR where
  start : String
  «end» : String
  data : List ClickPointR
deriving DecidableEq

/-- AnalyticsClicksSchema: ISO-timestamp start and end, and an array of
union-validated points. -/
def parseAnalyticsClicks : JsValue → Option AnalyticsClicksR
  | .obj fs => do
      let s ← parseStringField (jsGet fs "start")
      if isIsoTimestamp s then
        let e ← parseStringField (jsGet fs "end")
        if isIsoTimestamp e then
          let data ←
            match jsGet fs "data" with
            | some (.arr xs) => xs.mapM parseClickPoint
            | _ => none
          pure ⟨s, e, data⟩
        else none
      else none
  | _ => none

/-- Analytics.getClicks: issue the GET (range, granularity, timezone and
workspace travel only in the query) and v.parse the response against
AnalyticsClicksSchema — the schema applied does not depend on the
requested granularity, and v.parse throws a raw ValiError on failure. -/
def getClicks (granularity : Granularity) (respBody : JsValue) :
    Except Thrown AnalyticsClicksR :=
  match parseAnalyticsClicks respBody with
  | some r => .ok r
  | none => .error .vali

/-! ## Claims about the classifier -/

/-- Claim C1: toU301Error maps status to error kind by the fixed table —
status 0 (or absent) gives NETWORK_ERROR; 400 BAD_REQUEST; 401
UNAUTHORIZED; 403 FORBIDDEN; 404 NOT_FOUND; 429 RATE_LIMITED; any status
at least 500 SERVER_ERROR; any other status gives the generic kind whose
code is the envelope's code field when the body parses as the API-error
envelope and carries one, else "UNKNOWN". -/
theorem toU301Error_code_table (r : Option OfetchResponseLike) (c : Option JsCause) :
    (toU301Error r c).code =
      if rawStatus r = 0 then "NETWORK_ERROR"
      else if rawStatus r = 400 then "BAD_REQUEST"
      else if rawStatus r = 401 then "UNAUTHORIZED"
      else if rawStatus r = 403 then "FORBIDDEN"
      else if rawStatus r = 404 then "NOT_FOUND"
      else if rawStatus r = 429 then "RATE_LIMITED"
      else if 500 ≤ rawStatus r then "SERVER_ERROR"
      else ((apiOf r).bind (fun a => a.code)).getD "UNKNOWN" := by
  simp only [toU301Error]
  split_ifs <;> rfl

/-- The class names of the closed error taxonomy of src/errors.ts. -/
def isTaxonomyName (s : String) : Bool :=
  s == "U301Error" || s == "BadRequestError" || s == "UnauthorizedError" ||
  s == "ForbiddenError" || s == "NotFoundError" || s == "RateLimitError" ||
  s == "ValidationError" || s == "ParseError" || s == "NetworkError" ||
  s == "ServerError"

/-- Claim C7: toU301Error is total — for every combination of response
(status and body present or absent) and cause it returns one of the
typed taxonomy errors, carrying the computed status; it is a plain
function of its inputs and throws nothing itself. -/
theorem toU301Error_total_typed (r : Option OfetchResponseLike) (c : Option JsCause) :
    isTaxonomyName (toU301Error r c).name = true ∧
    (toU301Error r c).status = some (rawStatus r) := by
  simp only [toU301Error]
  split_ifs <;> exact ⟨rfl, rfl⟩

/-- Claim C8 (amended): the classified error's message is the envelope's
message when the body parses as the envelope, else the cause's message
when the cause is an Error, else "Request error"; and when the envelope
parse fails the raw body is attached as details only in the status-0 and
unmapped-status branches — the mapped-status branches (400, 401, 403,
404, 429, at least 500) attach the parsed envelope, which is null when
the parse failed. -/
theorem toU301Error_message_details (r : Option OfetchResponseLike) (c : Option JsCause) :
    ((toU301Error r c).message =
      match apiOf r with
      | some a => a.message
      | none =>
          match c with
          | some (.error m) => m
          | _ => "Request error") ∧
    ((toU301Error r c).details =
      if rawStatus r = 0 ∨
         ¬(rawStatus r = 400 ∨ rawStatus r = 401 ∨ rawStatus r = 403 ∨
           rawStatus r = 404 ∨ rawStatus r = 429 ∨ 500 ≤ rawStatus r) then
        apiOrRawDetails r
      else (apiOf r).map U301Details.api) := by
  simp only [toU301Error]
  split_ifs <;> first
    | exact ⟨rfl, rfl⟩
    | (exfalso; omega)

/-- Claim C8, counterexample: on status 400 with a body that does not
parse as the envelope, the raw body is not attached as details — the
details slot is null, not the raw body, contradicting the claim that on
a failed envelope parse the raw body is attached for every outcome. -/
theorem toU301Error_details_dropped_on_400 :
    (toU301Error (some { status := some 400, _data := some (.str "oops") }) none).details
      = none ∧
    ((toU301Error (some { status := some 400, _data := some (.str "oops") }) none).details
      = some (.raw (.str "oops")) → False) :=
  ⟨rfl, fun h => nomatch h⟩

/-! ## Claims about create, createMany, list, getClicks -/

/-- Claim C6: create on a URL string is equivalent to create on the
record with that url — the string is normalized to `{ url: s }` before
anything else, so both send the same single-element bulk body and give
the same result or thrown error on every response. -/
theorem create_string_shorthand (s : String) (respBody : JsValue) :
    create (.str s) respBody = create (.opts { url := s }) respBody := rfl

/-- Claim C10: when the caller's params record has no workspaceId, list
assigns the client's configured workspace id into that record (the
source's in-place coalescing assignment mutates the argument), and the
request's query is that updated record. -/
theorem list_defaults_workspace_by_mutation (cws : String) (p : ListParamsR)
    (respBody : JsValue) (h : p.workspaceId = none) :
    (list cws p respBody).finalParams = { p with workspaceId := some cws } ∧
    (list cws p respBody).finalParams ≠ p ∧
    (list cws p respBody).query = (list cws p respBody).finalParams := by
  have hf : (list cws p respBody).finalParams = { p with workspaceId := some cws } := by
    simp only [list, h]
  refine ⟨hf, ?_, rfl⟩
  intro he
  rw [hf] at he
  have h2 := congrArg ListParamsR.workspaceId he
  simp only [h] at h2
  exact Option.noConfusion h2

/-- Claim C10, witness at a concrete empty params record. -/
theorem list_defaults_workspace_by_mutation_witness :
    (list "ws-1" {} (.obj [])).finalParams =
      { ({} : ListParamsR) with workspaceId := some "ws-1" } ∧
    (list "ws-1" {} (.obj [])).finalParams ≠ ({} : ListParamsR) ∧
    (list "ws-1" {} (.obj [])).query = (list "ws-1" {} (.obj [])).finalParams :=
  list_defaults_workspace_by_mutation "ws-1" {} (.obj []) rfl

/-- Claim C3 (amended): on every response whose shape the list schema
rejects, list raises an error rather than returning a value with a
silent default — but the raised error is the raw valibot parse error
from v.parse, not the typed PARSE_FAILED error that create and
createMany throw. -/
theorem list_invalid_shape_raises (cws : String) (p : ListParamsR)
    (respBody : JsValue) (h : parseListResult respBody = none) :
    (list cws p respBody).result = .error .vali ∧
    throwsCode "PARSE_FAILED" (list cws p respBody).result = false := by
  have hr : (list cws p respBody).result = .error .vali := by
    simp only [list, h]
  exact ⟨hr, by rw [hr]; rfl⟩

/-- Claim C3 (amended), witness at a concrete response with empty links
and a metadata object missing `total`. -/
theorem list_invalid_shape_raises_witness :
    (list "ws-1" { perPage := some 10, page := some 1 }
        (.obj [("links", .arr []),
               ("metadata", .obj [("perPage", .num 10), ("page", .num 1)])])).result
      = .error .vali ∧
    throwsCode "PARSE_FAILED"
      (list "ws-1" { perPage := some 10, page := some 1 }
        (.obj [("links", .arr []),
               ("metadata", .obj [("perPage", .num 10), ("page", .num 1)])])).result
      = false :=
  list_invalid_shape_raises "ws-1" { perPage := some 10, page := some 1 }
    (.obj [("links", .arr []),
           ("metadata", .obj [("perPage", .num 10), ("page", .num 1)])]) rfl

/-- Claim C3, counterexample: on the response missing `metadata.total`,
the error list raises is not a typed U301 error at all — in particular
not a PARSE_FAILED one — but valibot's own parse error, so the claim
that list raises a parse-failed typed error is false. -/
theorem list_missing_total_raises_untyped :
    (list "ws-1" { perPage := some 10, page := some 1 }
        (.obj [("links", .arr []),
               ("metadata", .obj [("perPage", .num 10), ("page", .num 1)])])).result
      = .error .vali ∧
    ((list "ws-1" { perPage := some 10, page := some 1 }
        (.obj [("links", .arr []),
               ("metadata", .obj [("perPage", .num 10), ("page", .num 1)])])).result
      = .error (.u301 (ParseError "Invalid response" { details := some .issues })) → False) :=
  ⟨rfl, fun h => nomatch h⟩

/-- Claim C2 (amended): getClicks validates every data point against the
union of the day-shaped and hour-shaped variants irrespective of the
requested granularity — the schema applied does not depend on the
granularity argument, a day-shaped point (ISO-date string plus count)
always validates as a click point, and any response accepted by the
schema is returned rather than raising an error. -/
theorem getClicks_union_ignores_granularity (g g' : Granularity) (resp : JsValue)
    (fs : List (String × JsValue)) (ds : String) (ck : Int)
    (hdate : jsGet fs "date" = some (.str ds))
    (hclick : jsGet fs "click" = some (.num ck))
    (hiso : isIsoDate ds = true) :
    getClicks g resp = getClicks g' resp ∧
    parseClickPoint (.obj fs) = some ⟨ds, ck⟩ ∧
    (∀ r, parseAnalyticsClicks resp = some r → getClicks g resp = .ok r) := by
  refine ⟨rfl, ?_, ?_⟩
  · simp [parseClickPoint, parseClickDateItem, hdate, hclick, hiso,
          parseStringField, parseNumberField]
  · intro r hr
    simp only [getClicks, hr]

/-- Claim C2 (amended), witness: a day-shaped point inside a concrete
response, validated under granularity hour. -/
theorem getClicks_union_ignores_granularity_witness :
    getClicks .hour (.obj [("start", .str "2024-01-01T00:00:00Z"),
        ("end", .str "2024-01-08T00:00:00Z"),
        ("data", .arr [.obj [("date", .str "2024-01-03"), ("click", .num 5)]])]) =
      getClicks .day (.obj [("start", .str "2024-01-01T00:00:00Z"),
        ("end", .str "2024-01-08T00:00:00Z"),
        ("data", .arr [.obj [("date", .str "2024-01-03"), ("click", .num 5)]])]) ∧
    parseClickPoint (.obj [("date", .str "2024-01-03"), ("click", .num 5)]) =
      some ⟨"2024-01-03", 5⟩ ∧
    (∀ r, parseAnalyticsClicks (.obj [("start", .str "2024-01-01T00:00:00Z"),
        ("end", .str "2024-01-08T00:00:00Z"),
        ("data", .arr [.obj [("date", .str "2024-01-03"), ("click", .num 5)]])]) = some r →
      getClicks .hour (.obj [("start", .str "2024-01-01T00:00:00Z"),
        ("end", .str "2024-01-08T00:00:00Z"),
        ("data", .arr [.obj [("date", .str "2024-01-03"), ("click", .num 5)]])]) = .ok r) :=
  getClicks_union_ignores_granularity .hour .day
    (.obj [("start", .str "2024-01-01T00:00:00Z"),
        ("end", .str "2024-01-08T00:00:00Z"),
        ("data", .arr [.obj [("date", .str "2024-01-03"), ("click", .num 5)]])])
    [("date", .str "2024-01-03"), ("click", .num 5)] "2024-01-03" 5 rfl rfl rfl

/-- Claim C2, counterexample: a response whose data holds a day-shaped
point, requested with granularity hour, is accepted and returned by
getClicks — no parse-failed (nor any other) error is raised, so the
claim that such a mix raises parse-failed is false. -/
theorem getClicks_day_point_accepted_under_hour :
    getClicks .hour (.obj [("start", .str "2024-01-01T00:00:00Z"),
        ("end", .str "2024-01-08T00:00:00Z"),
        ("data", .arr [.obj [("date", .str "2024-01-03"), ("click", .num 5)]])]) =
      .ok ⟨"2024-01-01T00:00:00Z", "2024-01-08T00:00:00Z", [⟨"2024-01-03", 5⟩]⟩ ∧
    throwsCode "PARSE_FAILED"
      (getClicks .hour (.obj [("start", .str "2024-01-01T00:00:00Z"),
        ("end", .str "2024-01-08T00:00:00Z"),
        ("data", .arr [.obj [("date", .str "2024-01-03"), ("click", .num 5)]])])) = false :=
  ⟨rfl, rfl⟩

/-- Claim C4 (amended): with throwOnError absent or false, createMany
returns the full ordered sequence of validated items; with throwOnError
true it raises VALIDATION_FAILED carrying exactly the items whose error
field is present and non-empty when there is at least one such item, and
otherwise returns the validated sequence; a schema-invalid response
raises PARSE_FAILED regardless of throwOnError.  (The unamended claim
counted every error item; the source's filter `'error' in i && i.error`
skips an error item whose error string is empty.) -/
theorem createMany_throwOnError_behavior (inputs : List CreateInput)
    (throwOnError : Option Bool) (resp : JsValue) :
    (parseShortenResult resp = none →
      (createMany inputs throwOnError resp).result =
        .error (.u301 (ParseError "Invalid ShortenResult" { details := some .issues }))) ∧
    (∀ output, parseShortenResult resp = some output →
      (throwOnError.getD false = false →
        (createMany inputs throwOnError resp).result = .ok output) ∧
      (throwOnError.getD false = true →
        (output.filter entryHasTruthyError = [] →
          (createMany inputs throwOnError resp).result = .ok output) ∧
        (output.filter entryHasTruthyError ≠ [] →
          (createMany inputs throwOnError resp).result =
            .error (.u301 (ValidationError "Bulk create failed"
              { details := some (.entries (output.filter entryHasTruthyError)) }))))) ∧
    (createMany inputs throwOnError resp).requestBody = normalizeInputs inputs := by
  refine ⟨?_, ?_, rfl⟩
  · intro h
    simp only [createMany, h]
  · intro output h
    constructor
    · intro ht
      simp [createMany, h, ht]
    · intro ht
      constructor
      · intro he
        simp [createMany, h, ht, he]
      · intro he
        have hlen : (output.filter entryHasTruthyError).length ≠ 0 := by
          simpa [List.length_eq_zero] using he
        simp [createMany, h, ht, hlen]

/-- Claim C4 (amended), witness: a bulk response with one genuine error
item, with throwOnError set, raises VALIDATION_FAILED with that item as
details. -/
theorem createMany_throwOnError_behavior_witness :
    (createMany [CreateInput.str "https://a.example/x"] (some true)
        (.arr [.obj [("url", .str "https://a.example/x"), ("error", .str "INVALID_URL")]])).result =
      .error (.u301 (ValidationError "Bulk create failed"
        { details := some (.entries [.err ⟨"https://a.example/x", "INVALID_URL", none⟩]) })) :=
  (((createMany_throwOnError_behavior [CreateInput.str "https://a.example/x"] (some true)
      (.arr [.obj [("url", .str "https://a.example/x"), ("error", .str "INVALID_URL")]])).2.1
    [ShortenEntry.err ⟨"https://a.example/x", "INVALID_URL", none⟩] rfl).2 rfl).2 (by decide)

/-- Claim C4, counterexample: a response whose one validated item is an
error record with an empty error string — the error field is present, so
the claim requires a VALIDATION_FAILED raise under throwOnError, but
createMany returns the sequence instead because the filter tests the
field for truthiness, not presence. -/
theorem createMany_empty_error_code_not_raised :
    (createMany [CreateInput.str "https://a.example/x"] (some true)
        (.arr [.obj [("url", .str "https://a.example/x"), ("error", .str "")]])).result =
      .ok [.err ⟨"https://a.example/x", "", none⟩] ∧
    entryHasErrorField (.err ⟨"https://a.example/x", "", none⟩) = true ∧
    throwsCode "VALIDATION_FAILED"
      (createMany [CreateInput.str "https://a.example/x"] (some true)
        (.arr [.obj [("url", .str "https://a.example/x"), ("error", .str "")]])).result = false :=
  ⟨rfl, rfl, rfl⟩

/-- Claim C5 (amended): a schema-invalid response makes create raise
PARSE_FAILED; a validated response whose first item is an error entry
with a non-empty error string makes create raise VALIDATION_FAILED
carrying that item as details; a validated response whose first item is
a success item is returned.  (The unamended claim raised on every error
entry; the source's guard `'error' in item && item.error` lets an error
entry with an empty error string be returned as if it were the success
item.) -/
theorem create_result_behavior (input : CreateInput) (resp : JsValue) :
    (parseShortenResult resp = none →
      (create input resp).result =
        .error (.u301 (ParseError "Invalid ShortenResult" { details := some .issues }))) ∧
    (∀ e rest, parseShortenResult resp = some (.err e :: rest) → e.error ≠ "" →
      (create input resp).result =
        .error (.u301 (ValidationError (errItemMessage e)
          { details := some (.entry (.err e)) }))) ∧
    (∀ r rest, parseShortenResult resp = some (.ok r :: rest) →
      (create input resp).result = .ok (some (.ok r))) := by
  refine ⟨?_, ?_, ?_⟩
  · intro h
    simp only [create, h]
  · intro e rest h he
    simp [create, h, entryHasTruthyError, he]
  · intro r rest h
    simp [create, h, entryHasTruthyError]

/-- Claim C5 (amended), witness: a single-item error response with a
non-empty error code raises VALIDATION_FAILED with the item's message. -/
theorem create_result_behavior_witness :
    (create (.str "https://a.example/x")
        (.arr [.obj [("url", .str "https://a.example/x"), ("error", .str "SLUG_TAKEN"),
                     ("message", .str "slug already taken")]])).result =
      .error (.u301 (ValidationError "slug already taken"
        { details := some (.entry (.err ⟨"https://a.example/x", "SLUG_TAKEN",
            some "slug already taken"⟩)) })) :=
  (create_result_behavior (.str "https://a.example/x")
      (.arr [.obj [("url", .str "https://a.example/x"), ("error", .str "SLUG_TAKEN"),
                   ("message", .str "slug already taken")]])).2.1
    ⟨"https://a.example/x", "SLUG_TAKEN", some "slug already taken"⟩ [] rfl (by decide)

/-- Claim C5, counterexample: when the one validated result item is an
error entry whose error string is empty, create returns that error entry
instead of raising VALIDATION_FAILED, so the claim that create raises on
every error entry is false. -/
theorem create_empty_error_code_returned :
    (create (.str "https://a.example/x")
        (.arr [.obj [("url", .str "https://a.example/x"), ("error", .str "")]])).result =
      .ok (some (.err ⟨"https://a.example/x", "", none⟩)) ∧
    throwsCode "VALIDATION_FAILED"
      (create (.str "https://a.example/x")
        (.arr [.obj [("url", .str "https://a.example/x"), ("error", .str "")]])).result = false :=
  ⟨rfl, rfl⟩

/-- Claim C9 (amended): on validated items the discriminator used by
create and createMany holds exactly on the error variant with a
non-empty error string (presence of the error field alone is not
enough), and an item lacking the error field is exactly a success
record. -/
theorem entry_error_discriminant (i : ShortenEntry) :
    (entryHasTruthyError i = true ↔
      entryHasErrorField i = true ∧ ∃ e, i = .err e ∧ e.error ≠ "") ∧
    (entryHasErrorField i = false ↔ ∃ r, i = .ok r) := by
  cases i <;> simp [entryHasTruthyError, entryHasErrorField]

/-- Claim C9, counterexample: an error record with an empty error string
has the error field present yet is not counted by createMany's
throwOnError filter, so discrimination by mere presence of the error
field is false. -/
theorem error_field_present_but_not_counted :
    entryHasErrorField (.err ⟨"https://a.example/x", "", none⟩) = true ∧
    entryHasTruthyError (.err ⟨"https://a.example/x", "", none⟩) = false ∧
    List.filter entryHasTruthyError [ShortenEntry.err ⟨"https://a.example/x", "", none⟩] = [] := by
  decide

end U301
